import Mathlib

/-!
# super-alert-server: webhook to Telegram relay (src/index.js)

Shallow embedding of `src/index.js`.

* Values of a parsed request body are `JVal`; `undefined` (an absent property) is
  `none : Option JVal`.
* A number is carried by its `Number::toString` text: the program never does
  arithmetic on payload numbers, it only tests them for truthiness and converts
  them to text. Both zeros render as "0".
* The clock reading `new Date().toLocaleString('vi-VN')` is an explicit `String`
  argument of the formatters.
* `JSON.parse` (a built-in of the runtime) is a parameter `parse`; the provider is a
  parameter `net` giving, for each outbound request, what the transport delivers.
* `console.log` / `console.error` lines have no effect on the values modelled here.
-/

namespace SuperAlert

/-! ## Values -/

/-- JavaScript values as produced by `express.json()` / `express.urlencoded()`.
An object is its list of own properties in enumeration order (keys distinct). -/
inductive JVal where
  | null
  | bool (b : Bool)
  | num (text : String)
  | str (s : String)
  | arr (items : List JVal)
  | obj (props : List (String × JVal))

/-- A thrown JavaScript error: constructor name and `message` property. -/
structure JSError where
  name : String
  message : String
deriving DecidableEq, Repr

/-- Own-property lookup `o[k]` on the property list of an object. -/
def lookup (k : String) : List (String × JVal) → Option JVal
  | [] => none
  | (k', v) :: rest => if k' = k then some v else lookup k rest

/-- Whether the object has an own property `k`. -/
def hasKey (k : String) (ps : List (String × JVal)) : Bool :=
  (lookup k ps).isSome

/-- The property list without its property `k` (a model-level helper used to state
"as if the field were absent"). -/
def removeKey (k : String) : List (String × JVal) → List (String × JVal)
  | [] => []
  | (k', v) :: rest => if k' = k then removeKey k rest else (k', v) :: removeKey k rest

/-- ToBoolean on a value. -/
def truthy : JVal → Bool
  | .null => false
  | .bool b => b
  | .num t => t != "0" && t != "NaN"
  | .str s => s != ""
  | .arr _ => true
  | .obj _ => true

/-- ToBoolean on a possibly-undefined value. -/
def truthyU : Option JVal → Bool
  | none => false
  | some v => truthy v

/-- The operator `a || b`: `a` when `a` is truthy, else `b`. -/
def jsOr (a b : Option JVal) : Option JVal :=
  if truthyU a then a else b

/-- The TypeError of OrdinaryToPrimitive when neither `toString` nor `valueOf`
yields a primitive. -/
def toPrimitiveError : JSError :=
  ⟨"TypeError", "Cannot convert object to primitive value"⟩

mutual
/-- ToString, as applied by a template literal `${v}`.
An object converts through `toString`: an own `toString` property of a parsed body
is never callable, `Object.prototype.valueOf` returns the object itself, so the
conversion throws; without an own `toString` the inherited one gives
"[object Object]". An array converts through `join(",")`. -/
def toStr : JVal → Except JSError String
  | .null => .ok "null"
  | .bool b => .ok (if b then "true" else "false")
  | .num t => .ok t
  | .str s => .ok s
  | .arr xs => (itemsStr xs).map (String.intercalate ",")
  | .obj ps => if hasKey "toString" ps then .error toPrimitiveError else .ok "[object Object]"
termination_by structural v => v
/-- The element strings of `Array.prototype.join`: `null` gives the empty string. -/
def itemsStr : List JVal → Except JSError (List String)
  | [] => .ok []
  | .null :: rest => (itemsStr rest).map (fun r => "" :: r)
  | x :: rest => do
      let a ← toStr x
      let r ← itemsStr rest
      pure (a :: r)
termination_by structural xs => xs
end

/-- ToString on a possibly-undefined value. -/
def toStrU : Option JVal → Except JSError String
  | none => .ok "undefined"
  | some v => toStr v

/-- Property read `data.k` for the names the program reads (`symbol`, `price`,
`message`, `text`, `time`, `secret`): none of them is inherited from a prototype,
so only an object can carry one; reading from `null` throws. -/
def getField (data : JVal) (k : String) : Except JSError (Option JVal) :=
  match data with
  | .null => .error ⟨"TypeError", "Cannot read properties of null (reading '" ++ k ++ "')"⟩
  | .obj ps => .ok (lookup k ps)
  | _ => .ok none

/-- Strict equality `v === s` against a string `s`. -/
def strictEqString : Option JVal → String → Bool
  | some (.str t), s => t == s
  | _, _ => false

/-! ## JSON.stringify -/

/-- Lower-case hexadecimal digit. -/
def hexDigit (n : Nat) : Char :=
  if n < 10 then Char.ofNat (48 + n) else Char.ofNat (87 + n)

/-- One code point of QuoteJSONString. -/
def quoteChar (c : Char) : String :=
  if c.toNat = 34 then "\\\""
  else if c.toNat = 92 then "\\\\"
  else if c.toNat = 8 then "\\b"
  else if c.toNat = 9 then "\\t"
  else if c.toNat = 10 then "\\n"
  else if c.toNat = 12 then "\\f"
  else if c.toNat = 13 then "\\r"
  else if c.toNat < 32 then
    "\\u00" ++ String.mk [hexDigit (c.toNat / 16), hexDigit (c.toNat % 16)]
  else String.mk [c]

/-- QuoteJSONString. -/
def quoteJSONString (s : String) : String :=
  "\"" ++ String.join (s.toList.map quoteChar) ++ "\""

/-- Wrapping of the serialized members of an array or object. -/
def wrapMembers (gap indent opening closing : String) (parts : List String) : String :=
  if parts.isEmpty then opening ++ closing
  else if gap = "" then opening ++ String.intercalate "," parts ++ closing
  else
    opening ++ "\n" ++ (indent ++ gap)
      ++ String.intercalate (",\n" ++ (indent ++ gap)) parts
      ++ "\n" ++ indent ++ closing

mutual
/-- SerializeJSONProperty with indentation unit `gap` at current `indent`. -/
def serialize (gap indent : String) : JVal → String
  | .null => "null"
  | .bool b => if b then "true" else "false"
  | .num t => if t = "Infinity" ∨ t = "-Infinity" ∨ t = "NaN" then "null" else t
  | .str s => quoteJSONString s
  | .arr xs => wrapMembers gap indent "[" "]" (serializeItems gap (indent ++ gap) xs)
  | .obj ps => wrapMembers gap indent "\x7b" "\x7d" (serializeProps gap (indent ++ gap) ps)
termination_by structural v => v
/-- The serialized elements of an array. -/
def serializeItems (gap indent : String) : List JVal → List String
  | [] => []
  | x :: rest => serialize gap indent x :: serializeItems gap indent rest
termination_by structural xs => xs
/-- The serialized members of an object. -/
def serializeProps (gap indent : String) : List (String × JVal) → List String
  | [] => []
  | (k, v) :: rest =>
      (quoteJSONString k ++ ":" ++ (if gap = "" then "" else " ") ++ serialize gap indent v)
        :: serializeProps gap indent rest
termination_by structural ps => ps
end

/-- The call `JSON.stringify(v, null, 2)`. -/
def stringifyPretty (v : JVal) : String := serialize "  " "" v

/-- The call `JSON.stringify(v)`. -/
def stringifyCompact (v : JVal) : String := serialize "" "" v

/-! ## Configuration (lines 9-12) -/

/-- The environment as read at startup. `WEBHOOK_SECRET` is
`process.env.WEBHOOK_SECRET || ''`, the other two may be undefined. -/
structure Config where
  TELEGRAM_BOT_TOKEN : Option String
  TELEGRAM_CHAT_ID : Option String
  WEBHOOK_SECRET : String

/-- ToBoolean on an environment variable: undefined and the empty string are falsy. -/
def envSet : Option String → Bool
  | none => false
  | some s => s != ""

/-! ## Telegram helper (lines 15-52) -/

/-- The outbound HTTPS request built by `sendTelegramMessage`. -/
structure TelegramRequest where
  hostname : String
  port : Nat
  path : String
  method : String
  contentType : String
  contentLength : Nat
  data : String

/-- What the transport delivers for one request: a complete response (status code
and accumulated body) or an `error` event. -/
inductive ProviderEvent where
  | response (statusCode : Nat) (body : String)
  | error (e : JSError)

/-- How the promise returned by `sendTelegramMessage` ends. `uncaught` is an
exception thrown inside the `end` listener: it is outside the promise executor, so
the promise is neither resolved nor rejected. -/
inductive SendResult where
  | resolved (v : JVal)
  | rejected (e : JSError)
  | uncaught (e : JSError)

/-- Lines 17-32: the request body and options. An undefined `chat_id` is skipped by
`JSON.stringify`; an undefined token is interpolated as "undefined". -/
def telegramRequest (cfg : Config) (message : String) : TelegramRequest :=
  let chat : List (String × JVal) :=
    match cfg.TELEGRAM_CHAT_ID with
    | none => []
    | some c => [("chat_id", .str c)]
  let data := stringifyCompact (.obj (chat ++ [("text", .str message), ("parse_mode", .str "HTML")]))
  { hostname := "api.telegram.org"
    port := 443
    path := "/bot" ++ (cfg.TELEGRAM_BOT_TOKEN.getD "undefined") ++ "/sendMessage"
    method := "POST"
    contentType := "application/json"
    contentLength := data.utf8ByteSize
    data := data }

/-- Lines 34-48: how the promise settles on what the provider delivers. -/
def settle (parse : String → Except JSError JVal) : ProviderEvent → SendResult
  | .response statusCode body =>
      if statusCode = 200 then
        match parse body with
        | .ok v => .resolved v
        | .error e => .uncaught e
      else .rejected ⟨"Error", body⟩
  | .error e => .rejected e

/-- The helper `sendTelegramMessage(message)`. -/
def sendTelegramMessage (cfg : Config) (parse : String → Except JSError JVal)
    (net : TelegramRequest → ProviderEvent) (message : String) : SendResult :=
  settle parse (net (telegramRequest cfg message))

/-! ## Formatters (lines 55-81) -/

/-- The template literal of lines 61-66 with its four substitutions. -/
def tradingViewTemplate (symbol price message time : String) : String :=
  "🔔 <b>TRADINGVIEW ALERT</b>\n\n📊 <b>Symbol:</b> " ++ symbol
    ++ "\n💰 <b>Price:</b> " ++ price
    ++ "\n📝 <b>Message:</b> " ++ message
    ++ "\n🕐 <b>Time:</b> " ++ time

/-- The template literal of lines 75-80 with its four substitutions. -/
def mt5Template (symbol price message time : String) : String :=
  "🚨 <b>MT5 ALERT</b>\n\n📊 <b>Symbol:</b> " ++ symbol
    ++ "\n💰 <b>Price:</b> " ++ price
    ++ "\n📝 <b>Message:</b> " ++ message
    ++ "\n🕐 <b>Time:</b> " ++ time

/-- The function `formatTradingViewMessage(data)`; `clock` is
`new Date().toLocaleString('vi-VN')`. -/
def formatTradingViewMessage (data : JVal) (clock : String) : Except JSError String := do
  let symbol := jsOr (← getField data "symbol") (some (.str "Unknown"))
  let price := jsOr (← getField data "price") (some (.str "N/A"))
  let message :=
    jsOr (jsOr (← getField data "message") (← getField data "text")) (some (.str "Alert!"))
  let time := jsOr (← getField data "time") (some (.str clock))
  let s ← toStrU symbol
  let p ← toStrU price
  let m ← toStrU message
  let t ← toStrU time
  pure (tradingViewTemplate s p m t)

/-- The function `formatMT5Message(data)`; `clock` is
`new Date().toLocaleString('vi-VN')`. -/
def formatMT5Message (data : JVal) (clock : String) : Except JSError String := do
  let symbol := jsOr (← getField data "symbol") (some (.str "Unknown"))
  let price := jsOr (← getField data "price") (some (.str "N/A"))
  let message := jsOr (← getField data "message") (some (.str "MT5 Alert!"))
  let s ← toStrU symbol
  let p ← toStrU price
  let m ← toStrU message
  pure (mt5Template s p m clock)

/-! ## Routes (lines 103-172) -/

/-- An HTTP response written by a handler: status and JSON body. -/
structure Response where
  status : Nat
  body : JVal

/-- What one request does: the texts handed to `sendTelegramMessage`, in order, and
the response written (`none` when the handler never writes one). -/
structure Outcome where
  sent : List String
  response : Option Response

/-- The body `{ error: e.message }`. -/
def errorBody (e : JSError) : JVal := .obj [("error", .str e.message)]

/-- The body `{ success: true }`. -/
def successBody : JVal := .obj [("success", .bool true)]

/-- The tail shared by the four sending routes: `await sendTelegramMessage(text)`,
then `res.json(okBody)`, or `res.status(500).json({error: error.message})` in the
`catch`. A promise that never settles leaves the request without a response. -/
def sendAndRespond (cfg : Config) (parse : String → Except JSError JVal)
    (net : TelegramRequest → ProviderEvent) (text : String) (okBody : JVal) : Outcome :=
  match sendTelegramMessage cfg parse net text with
  | .resolved _ => ⟨[text], some ⟨200, okBody⟩⟩
  | .rejected e => ⟨[text], some ⟨500, errorBody e⟩⟩
  | .uncaught _ => ⟨[text], none⟩

/-- The fixed text of `GET /test`. -/
def testMessage : String := "🧪 <b>TEST MESSAGE</b>\n\nServer is working correctly! ✅"

/-- The handler of `GET /test` (lines 103-116). -/
def routeTest (cfg : Config) (parse : String → Except JSError JVal)
    (net : TelegramRequest → ProviderEvent) : Outcome :=
  if !envSet cfg.TELEGRAM_BOT_TOKEN || !envSet cfg.TELEGRAM_CHAT_ID then
    ⟨[], some ⟨500, .obj [("error", .str "Missing TELEGRAM_BOT_TOKEN or TELEGRAM_CHAT_ID")]⟩⟩
  else
    sendAndRespond cfg parse net testMessage
      (.obj [("success", .bool true), ("message", .str "Test message sent to Telegram!")])

/-- The `try` block shared by the two formatter routes: a formatter that throws is
caught and answered 500 without any send. -/
def formatThenSend (cfg : Config) (parse : String → Except JSError JVal)
    (net : TelegramRequest → ProviderEvent) (formatted : Except JSError String) : Outcome :=
  match formatted with
  | .error e => ⟨[], some ⟨500, errorBody e⟩⟩
  | .ok message => sendAndRespond cfg parse net message successBody

/-- The handler of `POST /webhook/tradingview` (lines 119-136). The secret check is
outside the `try`: a throw there leaves the request without a response. -/
def routeTradingview (cfg : Config) (parse : String → Except JSError JVal)
    (net : TelegramRequest → ProviderEvent) (clock : String) (body : JVal) : Outcome :=
  if cfg.WEBHOOK_SECRET != "" then
    match getField body "secret" with
    | .error _ => ⟨[], none⟩
    | .ok s =>
        if !strictEqString s cfg.WEBHOOK_SECRET then
          ⟨[], some ⟨401, .obj [("error", .str "Invalid secret")]⟩⟩
        else formatThenSend cfg parse net (formatTradingViewMessage body clock)
  else formatThenSend cfg parse net (formatTradingViewMessage body clock)

/-- The handler of `POST /webhook/mt5` (lines 139-150). -/
def routeMt5 (cfg : Config) (parse : String → Except JSError JVal)
    (net : TelegramRequest → ProviderEvent) (clock : String) (body : JVal) : Outcome :=
  formatThenSend cfg parse net (formatMT5Message body clock)

/-- The header of the generic route. -/
def alertHeader : String := "📨 <b>ALERT</b>\n\n"

/-- Lines 157-166 of `POST /webhook`: the text handed to the sender. -/
def webhookText (body : JVal) : Except JSError String :=
  match body with
  | .str s => pure (alertHeader ++ s)
  | _ => do
      let sel := jsOr (← getField body "message") (← getField body "text")
      if truthyU sel then
        let t ← toStrU sel
        pure (alertHeader ++ t)
      else
        pure (alertHeader ++ stringifyPretty body)

/-- The handler of `POST /webhook` (lines 153-172). -/
def routeWebhook (cfg : Config) (parse : String → Except JSError JVal)
    (net : TelegramRequest → ProviderEvent) (body : JVal) : Outcome :=
  formatThenSend cfg parse net (webhookText body)

/-! ## Sample environment for the concrete checks -/

/-- A configuration with token, chat and no webhook secret. -/
def sampleConfig : Config := ⟨some "123:abc", some "42", ""⟩

/-- A configuration whose webhook secret is "abc". -/
def secretConfig : Config := ⟨some "123:abc", some "42", "abc"⟩

/-- The value of `JSON.parse` on the two response bodies used in the concrete checks:
the document `{"ok":true}` parses, the text `<html>` is a SyntaxError. Other inputs
are not used. -/
def sampleParse (s : String) : Except JSError JVal :=
  if s = "\x7b\"ok\":true\x7d" then .ok (.obj [("ok", .bool true)])
  else .error ⟨"SyntaxError", "Unexpected token '<', \"<html>\" is not valid JSON"⟩

/-! ## Auxiliary definitions for the statements -/

/-- The own properties a value can offer to a property read: those of an object,
none for any other non-null value. -/
def fields : JVal → List (String × JVal)
  | .obj ps => ps
  | _ => []

/-- The part of the TradingView text before the Time line. -/
def tradingViewHead (symbol price message : String) : String :=
  "🔔 <b>TRADINGVIEW ALERT</b>\n\n📊 <b>Symbol:</b> " ++ symbol
    ++ "\n💰 <b>Price:</b> " ++ price
    ++ "\n📝 <b>Message:</b> " ++ message

/-- The part of the MT5 text before the Time line. -/
def mt5Head (symbol price message : String) : String :=
  "🚨 <b>MT5 ALERT</b>\n\n📊 <b>Symbol:</b> " ++ symbol
    ++ "\n💰 <b>Price:</b> " ++ price
    ++ "\n📝 <b>Message:</b> " ++ message

/-- Two possibly-undefined values that `||` cannot tell apart: equal, or both falsy. -/
def sameChoice (a a' : Option JVal) : Prop :=
  a = a' ∨ (truthyU a = false ∧ truthyU a' = false)

/-! ## The sender -/

theorem settle_ok (parse : String → Except JSError JVal) (body : String) (v : JVal)
    (h : parse body = .ok v) : settle parse (.response 200 body) = .resolved v := by
  simp [settle, h]

theorem settle_unparseable (parse : String → Except JSError JVal) (body : String)
    (e : JSError) (h : parse body = .error e) :
    settle parse (.response 200 body) = .uncaught e := by
  simp [settle, h]

theorem settle_not_ok (parse : String → Except JSError JVal) (status : Nat) (body : String)
    (h : status ≠ 200) : settle parse (.response status body) = .rejected ⟨"Error", body⟩ := by
  simp [settle, h]

theorem settle_error (parse : String → Except JSError JVal) (e : JSError) :
    settle parse (.error e) = .rejected e := rfl

theorem sendTelegramMessage_rejects_non_ok (cfg : Config)
    (parse : String → Except JSError JVal) (net : TelegramRequest → ProviderEvent)
    (message : String) (status : Nat) (body : String)
    (hn : net (telegramRequest cfg message) = .response status body) (hs : status ≠ 200) :
    sendTelegramMessage cfg parse net message = .rejected ⟨"Error", body⟩ := by
  rw [sendTelegramMessage, hn]
  exact settle_not_ok parse status body hs

/-- C6: whatever the provider delivers for the request, a 200 response whose body
parses resolves the promise with the parsed body, a response with any other status
rejects it with `Error(body)` (whether or not the body parses), and a transport
error rejects it with that error. -/
theorem sendTelegramMessage_settles (cfg : Config) (parse : String → Except JSError JVal)
    (net : TelegramRequest → ProviderEvent) (message : String) :
    (∀ body v, net (telegramRequest cfg message) = .response 200 body → parse body = .ok v →
      sendTelegramMessage cfg parse net message = .resolved v) ∧
    (∀ status body, net (telegramRequest cfg message) = .response status body → status ≠ 200 →
      sendTelegramMessage cfg parse net message = .rejected ⟨"Error", body⟩) ∧
    (∀ e, net (telegramRequest cfg message) = .error e →
      sendTelegramMessage cfg parse net message = .rejected e) := by
  refine ⟨?_, ?_, ?_⟩
  · intro body v hn hp
    rw [sendTelegramMessage, hn]
    exact settle_ok parse body v hp
  · intro status body hn hs
    rw [sendTelegramMessage, hn]
    exact settle_not_ok parse status body hs
  · intro e hn
    rw [sendTelegramMessage, hn]
    rfl

theorem sendTelegramMessage_settles_witness :
    sendTelegramMessage sampleConfig sampleParse
        (fun _ => .response 200 "\x7b\"ok\":true\x7d") "hi"
      = .resolved (.obj [("ok", .bool true)]) ∧
    sendTelegramMessage sampleConfig sampleParse
        (fun _ => .response 429 "\x7b\"ok\":false\x7d") "hi"
      = .rejected ⟨"Error", "\x7b\"ok\":false\x7d"⟩ ∧
    sendTelegramMessage sampleConfig sampleParse
        (fun _ => .error ⟨"Error", "read ECONNRESET"⟩) "hi"
      = .rejected ⟨"Error", "read ECONNRESET"⟩ :=
  ⟨(sendTelegramMessage_settles sampleConfig sampleParse
      (fun _ => .response 200 "\x7b\"ok\":true\x7d") "hi").1 _ _ rfl rfl,
   (sendTelegramMessage_settles sampleConfig sampleParse
      (fun _ => .response 429 "\x7b\"ok\":false\x7d") "hi").2.1 _ _ rfl (by decide),
   (sendTelegramMessage_settles sampleConfig sampleParse
      (fun _ => .error ⟨"Error", "read ECONNRESET"⟩) "hi").2.2 _ rfl⟩

/-- C7: at a 200 response whose body is not JSON the parse error is thrown inside the
`end` listener: the promise is not rejected, and the route that awaits it writes no
response (here `POST /webhook/mt5`). -/
theorem unparseable_ok_response_not_rejected :
    sendTelegramMessage sampleConfig sampleParse (fun _ => .response 200 "<html>") "hi"
      = .uncaught ⟨"SyntaxError", "Unexpected token '<', \"<html>\" is not valid JSON"⟩ ∧
    (routeMt5 sampleConfig sampleParse (fun _ => .response 200 "<html>") "10:00:00 4/11/2026"
      (.obj [("symbol", .str "EURUSD")])).response.isNone = true := by
  constructor <;> rfl

/-! ## The shared send-and-respond tail -/

theorem sendAndRespond_sent (cfg : Config) (parse : String → Except JSError JVal)
    (net : TelegramRequest → ProviderEvent) (text : String) (okBody : JVal) :
    (sendAndRespond cfg parse net text okBody).sent = [text] := by
  unfold sendAndRespond
  split <;> rfl

theorem sendAndRespond_resolved (cfg : Config) (parse : String → Except JSError JVal)
    (net : TelegramRequest → ProviderEvent) (text : String) (okBody v : JVal)
    (h : sendTelegramMessage cfg parse net text = .resolved v) :
    sendAndRespond cfg parse net text okBody = ⟨[text], some ⟨200, okBody⟩⟩ := by
  simp [sendAndRespond, h]

theorem sendAndRespond_rejected (cfg : Config) (parse : String → Except JSError JVal)
    (net : TelegramRequest → ProviderEvent) (text : String) (okBody : JVal) (e : JSError)
    (h : sendTelegramMessage cfg parse net text = .rejected e) :
    sendAndRespond cfg parse net text okBody = ⟨[text], some ⟨500, errorBody e⟩⟩ := by
  simp [sendAndRespond, h]

theorem sendAndRespond_status_ne (cfg : Config) (parse : String → Except JSError JVal)
    (net : TelegramRequest → ProviderEvent) (text : String) (okBody : JVal) :
    (sendAndRespond cfg parse net text okBody).response.map (fun r => r.status) ≠ some 401 := by
  unfold sendAndRespond
  split <;> simp

theorem formatThenSend_ok (cfg : Config) (parse : String → Except JSError JVal)
    (net : TelegramRequest → ProviderEvent) (text : String) :
    formatThenSend cfg parse net (.ok text) = sendAndRespond cfg parse net text successBody :=
  rfl

theorem formatThenSend_error (cfg : Config) (parse : String → Except JSError JVal)
    (net : TelegramRequest → ProviderEvent) (e : JSError) :
    formatThenSend cfg parse net (.error e) = ⟨[], some ⟨500, errorBody e⟩⟩ :=
  rfl

theorem formatThenSend_status_ne (cfg : Config) (parse : String → Except JSError JVal)
    (net : TelegramRequest → ProviderEvent) (formatted : Except JSError String) :
    (formatThenSend cfg parse net formatted).response.map (fun r => r.status) ≠ some 401 := by
  cases formatted with
  | error e => simp [formatThenSend]
  | ok text => exact sendAndRespond_status_ne cfg parse net text successBody

theorem formatThenSend_rejected (cfg : Config) (parse : String → Except JSError JVal)
    (net : TelegramRequest → ProviderEvent) (formatted : Except JSError String)
    (text : String) (e : JSError)
    (hmem : text ∈ (formatThenSend cfg parse net formatted).sent)
    (h : sendTelegramMessage cfg parse net text = .rejected e) :
    formatThenSend cfg parse net formatted = ⟨[text], some ⟨500, errorBody e⟩⟩ := by
  cases formatted with
  | error e' => simp [formatThenSend] at hmem
  | ok t =>
    rw [formatThenSend_ok, sendAndRespond_sent] at hmem
    have ht : text = t := by simpa using hmem
    subst ht
    rw [formatThenSend_ok]
    exact sendAndRespond_rejected cfg parse net text successBody e h

theorem routeTradingview_unfold (cfg : Config) (parse : String → Except JSError JVal)
    (net : TelegramRequest → ProviderEvent) (clock : String) (body : JVal)
    (sec : Option JVal) (hsec : getField body "secret" = .ok sec) :
    routeTradingview cfg parse net clock body =
      if cfg.WEBHOOK_SECRET ≠ "" ∧ strictEqString sec cfg.WEBHOOK_SECRET = false then
        ⟨[], some ⟨401, .obj [("error", .str "Invalid secret")]⟩⟩
      else formatThenSend cfg parse net (formatTradingViewMessage body clock) := by
  unfold routeTradingview
  rw [hsec]
  by_cases h1 : cfg.WEBHOOK_SECRET = "" <;> by_cases h2 : strictEqString sec cfg.WEBHOOK_SECRET
    <;> simp [h1, h2]

/-- C5: with the token or the chat id unset or empty, `GET /test` answers 500 with the
missing-configuration error and sends nothing; with both present it hands the fixed
self-test text to the sender exactly once and answers 200 with the success body when
that send resolves. -/
theorem routeTest_configuration (cfg : Config) (parse : String → Except JSError JVal)
    (net : TelegramRequest → ProviderEvent) :
    ((envSet cfg.TELEGRAM_BOT_TOKEN = false ∨ envSet cfg.TELEGRAM_CHAT_ID = false) →
      routeTest cfg parse net =
        ⟨[], some ⟨500, .obj [("error", .str "Missing TELEGRAM_BOT_TOKEN or TELEGRAM_CHAT_ID")]⟩⟩) ∧
    (envSet cfg.TELEGRAM_BOT_TOKEN = true → envSet cfg.TELEGRAM_CHAT_ID = true →
      (routeTest cfg parse net).sent = [testMessage] ∧
      ∀ v, sendTelegramMessage cfg parse net testMessage = .resolved v →
        routeTest cfg parse net =
          ⟨[testMessage], some ⟨200, .obj [("success", .bool true),
            ("message", .str "Test message sent to Telegram!")]⟩⟩) := by
  constructor
  · intro h
    unfold routeTest
    rcases h with h | h <;> simp [h]
  · intro h1 h2
    unfold routeTest
    simp only [h1, h2, Bool.not_true, Bool.or_self, Bool.false_eq_true, if_false]
    exact ⟨sendAndRespond_sent _ _ _ _ _, fun v hv => sendAndRespond_resolved _ _ _ _ _ v hv⟩

theorem routeTest_configuration_witness :
    routeTest ⟨none, some "42", ""⟩ sampleParse (fun _ => .response 200 "\x7b\"ok\":true\x7d") =
        ⟨[], some ⟨500, .obj [("error", .str "Missing TELEGRAM_BOT_TOKEN or TELEGRAM_CHAT_ID")]⟩⟩ ∧
    routeTest sampleConfig sampleParse (fun _ => .response 200 "\x7b\"ok\":true\x7d") =
        ⟨[testMessage], some ⟨200, .obj [("success", .bool true),
          ("message", .str "Test message sent to Telegram!")]⟩⟩ :=
  ⟨(routeTest_configuration ⟨none, some "42", ""⟩ sampleParse
      (fun _ => .response 200 "\x7b\"ok\":true\x7d")).1 (Or.inl rfl),
   ((routeTest_configuration sampleConfig sampleParse
      (fun _ => .response 200 "\x7b\"ok\":true\x7d")).2 rfl rfl).2 (.obj [("ok", .bool true)]) rfl⟩

/-- C4: on each of the four sending routes (`GET /test`, `POST /webhook/tradingview`,
`POST /webhook/mt5`, `POST /webhook`), whenever a text was handed to the sender and
that send is rejected with an error `e`, the text was handed over exactly once (no
retry) and the response is status 500 with JSON body exactly `{error: e.message}`, so
no success body is written. -/
theorem send_failure_is_500 (cfg : Config) (parse : String → Except JSError JVal)
    (net : TelegramRequest → ProviderEvent) (clock : String) (body : JVal)
    (text : String) (e : JSError)
    (h : sendTelegramMessage cfg parse net text = .rejected e) :
    (text ∈ (routeTest cfg parse net).sent →
      routeTest cfg parse net =
        ⟨[text], some ⟨500, .obj [("error", .str e.message)]⟩⟩) ∧
    (text ∈ (routeTradingview cfg parse net clock body).sent →
      routeTradingview cfg parse net clock body =
        ⟨[text], some ⟨500, .obj [("error", .str e.message)]⟩⟩) ∧
    (text ∈ (routeMt5 cfg parse net clock body).sent →
      routeMt5 cfg parse net clock body =
        ⟨[text], some ⟨500, .obj [("error", .str e.message)]⟩⟩) ∧
    (text ∈ (routeWebhook cfg parse net body).sent →
      routeWebhook cfg parse net body =
        ⟨[text], some ⟨500, .obj [("error", .str e.message)]⟩⟩) := by
  refine ⟨?_, ?_, ?_, ?_⟩
  · unfold routeTest
    split
    · intro hmem
      simp at hmem
    · intro hmem
      rw [sendAndRespond_sent] at hmem
      have ht : text = testMessage := by simpa using hmem
      subst ht
      exact sendAndRespond_rejected _ _ _ _ _ e h
  · unfold routeTradingview
    split
    · split
      · intro hmem
        simp at hmem
      · split
        · intro hmem
          simp at hmem
        · intro hmem
          exact formatThenSend_rejected _ _ _ _ _ _ hmem h
    · intro hmem
      exact formatThenSend_rejected _ _ _ _ _ _ hmem h
  · intro hmem
    exact formatThenSend_rejected _ _ _ _ _ _ hmem h
  · intro hmem
    exact formatThenSend_rejected _ _ _ _ _ _ hmem h

theorem send_failure_is_500_witness :
    routeTest sampleConfig sampleParse (fun _ => .response 502 "Bad Gateway") =
        ⟨["🧪 <b>TEST MESSAGE</b>\n\nServer is working correctly! ✅"],
          some ⟨500, .obj [("error", .str "Bad Gateway")]⟩⟩ ∧
    routeTradingview secretConfig sampleParse (fun _ => .error ⟨"Error", "read ECONNRESET"⟩)
        "10:00:00 4/11/2026"
        (.obj [("secret", .str "abc"), ("symbol", .str "BTCUSD"), ("price", .num "64000.5")]) =
        ⟨["🔔 <b>TRADINGVIEW ALERT</b>\n\n📊 <b>Symbol:</b> BTCUSD\n💰 <b>Price:</b> 64000.5\n📝 <b>Message:</b> Alert!\n🕐 <b>Time:</b> 10:00:00 4/11/2026"],
          some ⟨500, .obj [("error", .str "read ECONNRESET")]⟩⟩ ∧
    routeMt5 sampleConfig sampleParse (fun _ => .response 502 "Bad Gateway")
        "10:00:00 4/11/2026" (.obj [("symbol", .str "EURUSD"), ("message", .str "Buy")]) =
        ⟨["🚨 <b>MT5 ALERT</b>\n\n📊 <b>Symbol:</b> EURUSD\n💰 <b>Price:</b> N/A\n📝 <b>Message:</b> Buy\n🕐 <b>Time:</b> 10:00:00 4/11/2026"],
          some ⟨500, .obj [("error", .str "Bad Gateway")]⟩⟩ ∧
    routeWebhook sampleConfig sampleParse (fun _ => .response 502 "Bad Gateway")
        (.obj [("message", .str "ping")]) =
        ⟨["📨 <b>ALERT</b>\n\nping"], some ⟨500, .obj [("error", .str "Bad Gateway")]⟩⟩ :=
  ⟨(send_failure_is_500 sampleConfig sampleParse (fun _ => .response 502 "Bad Gateway")
      "10:00:00 4/11/2026" (.obj []) "🧪 <b>TEST MESSAGE</b>\n\nServer is working correctly! ✅"
      ⟨"Error", "Bad Gateway"⟩ rfl).1 (List.Mem.head _),
   (send_failure_is_500 secretConfig sampleParse (fun _ => .error ⟨"Error", "read ECONNRESET"⟩)
      "10:00:00 4/11/2026"
      (.obj [("secret", .str "abc"), ("symbol", .str "BTCUSD"), ("price", .num "64000.5")])
      "🔔 <b>TRADINGVIEW ALERT</b>\n\n📊 <b>Symbol:</b> BTCUSD\n💰 <b>Price:</b> 64000.5\n📝 <b>Message:</b> Alert!\n🕐 <b>Time:</b> 10:00:00 4/11/2026"
      ⟨"Error", "read ECONNRESET"⟩ rfl).2.1 (List.Mem.head _),
   (send_failure_is_500 sampleConfig sampleParse (fun _ => .response 502 "Bad Gateway")
      "10:00:00 4/11/2026" (.obj [("symbol", .str "EURUSD"), ("message", .str "Buy")])
      "🚨 <b>MT5 ALERT</b>\n\n📊 <b>Symbol:</b> EURUSD\n💰 <b>Price:</b> N/A\n📝 <b>Message:</b> Buy\n🕐 <b>Time:</b> 10:00:00 4/11/2026"
      ⟨"Error", "Bad Gateway"⟩ rfl).2.2.1 (List.Mem.head _),
   (send_failure_is_500 sampleConfig sampleParse (fun _ => .response 502 "Bad Gateway")
      "10:00:00 4/11/2026" (.obj [("message", .str "ping")]) "📨 <b>ALERT</b>\n\nping"
      ⟨"Error", "Bad Gateway"⟩ rfl).2.2.2 (List.Mem.head _)⟩

/-! ## The formatters on a mapping -/

theorem getField_of_ne_null (data : JVal) (k : String) (h : data ≠ .null) :
    getField data k = .ok (lookup k (fields data)) := by
  cases data <;> first | rfl | exact absurd rfl h

theorem bind_eq_ok {α β : Type} (x : Except JSError α) (f : α → Except JSError β) (b : β) :
    (x >>= f) = .ok b ↔ ∃ a, x = .ok a ∧ f a = .ok b := by
  cases x with
  | error e => simp [bind, Except.bind]
  | ok a => simp [bind, Except.bind]

theorem formatTradingViewMessage_obj (ps : List (String × JVal)) (clock : String) :
    formatTradingViewMessage (.obj ps) clock =
      (toStrU (jsOr (lookup "symbol" ps) (some (.str "Unknown"))) >>= fun s =>
       toStrU (jsOr (lookup "price" ps) (some (.str "N/A"))) >>= fun p =>
       toStrU (jsOr (jsOr (lookup "message" ps) (lookup "text" ps)) (some (.str "Alert!")))
         >>= fun m =>
       toStrU (jsOr (lookup "time" ps) (some (.str clock))) >>= fun t =>
       pure (tradingViewTemplate s p m t)) := rfl

theorem formatMT5Message_obj (ps : List (String × JVal)) (clock : String) :
    formatMT5Message (.obj ps) clock =
      (toStrU (jsOr (lookup "symbol" ps) (some (.str "Unknown"))) >>= fun s =>
       toStrU (jsOr (lookup "price" ps) (some (.str "N/A"))) >>= fun p =>
       toStrU (jsOr (lookup "message" ps) (some (.str "MT5 Alert!"))) >>= fun m =>
       pure (mt5Template s p m clock)) := rfl

theorem formatTradingViewMessage_fields (data : JVal) (clock : String) (h : data ≠ .null) :
    formatTradingViewMessage data clock = formatTradingViewMessage (.obj (fields data)) clock := by
  cases data <;> first | rfl | exact absurd rfl h

theorem formatMT5Message_fields (data : JVal) (clock : String) (h : data ≠ .null) :
    formatMT5Message data clock = formatMT5Message (.obj (fields data)) clock := by
  cases data <;> first | rfl | exact absurd rfl h

theorem formatTradingViewMessage_ok_iff (ps : List (String × JVal)) (clock out : String) :
    formatTradingViewMessage (.obj ps) clock = .ok out ↔
      ∃ s p m t,
        toStrU (jsOr (lookup "symbol" ps) (some (.str "Unknown"))) = .ok s ∧
        toStrU (jsOr (lookup "price" ps) (some (.str "N/A"))) = .ok p ∧
        toStrU (jsOr (jsOr (lookup "message" ps) (lookup "text" ps)) (some (.str "Alert!")))
          = .ok m ∧
        toStrU (jsOr (lookup "time" ps) (some (.str clock))) = .ok t ∧
        out = tradingViewTemplate s p m t := by
  rw [formatTradingViewMessage_obj]
  simp only [bind_eq_ok]
  constructor
  · rintro ⟨s, hs, p, hp, m, hm, t, ht, h⟩
    refine ⟨s, p, m, t, hs, hp, hm, ht, ?_⟩
    cases h
    rfl
  · rintro ⟨s, p, m, t, hs, hp, hm, ht, rfl⟩
    exact ⟨s, hs, p, hp, m, hm, t, ht, rfl⟩

theorem formatMT5Message_ok_iff (ps : List (String × JVal)) (clock out : String) :
    formatMT5Message (.obj ps) clock = .ok out ↔
      ∃ s p m,
        toStrU (jsOr (lookup "symbol" ps) (some (.str "Unknown"))) = .ok s ∧
        toStrU (jsOr (lookup "price" ps) (some (.str "N/A"))) = .ok p ∧
        toStrU (jsOr (lookup "message" ps) (some (.str "MT5 Alert!"))) = .ok m ∧
        out = mt5Template s p m clock := by
  rw [formatMT5Message_obj]
  simp only [bind_eq_ok]
  constructor
  · rintro ⟨s, hs, p, hp, m, hm, h⟩
    refine ⟨s, p, m, hs, hp, hm, ?_⟩
    cases h
    rfl
  · rintro ⟨s, p, m, hs, hp, hm, rfl⟩
    exact ⟨s, hs, p, hp, m, hm, rfl⟩

theorem jsOr_of_falsy (a b : Option JVal) (h : truthyU a = false) : jsOr a b = b := by
  simp [jsOr, h]

theorem jsOr_of_truthy (a b : Option JVal) (h : truthyU a = true) : jsOr a b = a := by
  simp [jsOr, h]

theorem toStrU_jsOr_str (a : Option JVal) (d : String)
    (h : ∀ v, a = some v → ∃ s, toStr v = .ok s) :
    ∃ s, toStrU (jsOr a (some (.str d))) = .ok s := by
  unfold jsOr
  split
  · cases a with
    | none => exact ⟨"undefined", rfl⟩
    | some v => exact h v rfl
  · exact ⟨d, rfl⟩

theorem tradingViewTemplate_head (s p m t : String) :
    tradingViewTemplate s p m t = tradingViewHead s p m ++ "\n🕐 <b>Time:</b> " ++ t := rfl

theorem mt5Template_head (s p m t : String) :
    mt5Template s p m t = mt5Head s p m ++ "\n🕐 <b>Time:</b> " ++ t := rfl

/-- C3 (as stated) fails: a payload mapping whose `symbol` is an object with an own
`toString` property makes both formatters throw instead of returning a string. -/
theorem formatters_throw_on_unconvertible_field :
    formatTradingViewMessage (.obj [("symbol", .obj [("toString", .num "1")])])
        "10:00:00 4/11/2026" = .error toPrimitiveError ∧
    formatMT5Message (.obj [("symbol", .obj [("toString", .num "1")])])
        "10:00:00 4/11/2026" = .error toPrimitiveError := by
  constructor <;> rfl

/-- C3 (amended): for every payload mapping whose values under the fields a formatter
reads convert to a string, the formatter returns a string; and whenever a formatter
returns, its text is the template with "Unknown" on the Symbol line when `symbol` is
lacking, "N/A" on the Price line when `price` is lacking, and on the Message line
"Alert!" (TradingView, `message` and `text` lacking) or "MT5 Alert!" (MT5, `message`
lacking). -/
theorem formatters_defaults (ps : List (String × JVal)) (clock : String) :
    ((∀ k v, k ∈ ["symbol", "price", "message", "text", "time"] → lookup k ps = some v →
        ∃ s, toStr v = .ok s) →
      ∃ out, formatTradingViewMessage (.obj ps) clock = .ok out) ∧
    ((∀ k v, k ∈ ["symbol", "price", "message"] → lookup k ps = some v →
        ∃ s, toStr v = .ok s) →
      ∃ out, formatMT5Message (.obj ps) clock = .ok out) ∧
    (∀ out, formatTradingViewMessage (.obj ps) clock = .ok out →
      ∃ s p m t, out = tradingViewTemplate s p m t ∧
        (lookup "symbol" ps = none → s = "Unknown") ∧
        (lookup "price" ps = none → p = "N/A") ∧
        (lookup "message" ps = none → lookup "text" ps = none → m = "Alert!")) ∧
    (∀ out, formatMT5Message (.obj ps) clock = .ok out →
      ∃ s p m, out = mt5Template s p m clock ∧
        (lookup "symbol" ps = none → s = "Unknown") ∧
        (lookup "price" ps = none → p = "N/A") ∧
        (lookup "message" ps = none → m = "MT5 Alert!")) := by
  refine ⟨?_, ?_, ?_, ?_⟩
  · intro h
    obtain ⟨s, hs⟩ := toStrU_jsOr_str (lookup "symbol" ps) "Unknown"
      (fun v hv => h "symbol" v (by simp) hv)
    obtain ⟨p, hp⟩ := toStrU_jsOr_str (lookup "price" ps) "N/A"
      (fun v hv => h "price" v (by simp) hv)
    obtain ⟨m, hm⟩ := toStrU_jsOr_str (jsOr (lookup "message" ps) (lookup "text" ps)) "Alert!"
      (by
        intro v hv
        unfold jsOr at hv
        split at hv
        · exact h "message" v (by simp) hv
        · exact h "text" v (by simp) hv)
    obtain ⟨t, ht⟩ := toStrU_jsOr_str (lookup "time" ps) clock
      (fun v hv => h "time" v (by simp) hv)
    exact ⟨_, (formatTradingViewMessage_ok_iff ps clock _).2 ⟨s, p, m, t, hs, hp, hm, ht, rfl⟩⟩
  · intro h
    obtain ⟨s, hs⟩ := toStrU_jsOr_str (lookup "symbol" ps) "Unknown"
      (fun v hv => h "symbol" v (by simp) hv)
    obtain ⟨p, hp⟩ := toStrU_jsOr_str (lookup "price" ps) "N/A"
      (fun v hv => h "price" v (by simp) hv)
    obtain ⟨m, hm⟩ := toStrU_jsOr_str (lookup "message" ps) "MT5 Alert!"
      (fun v hv => h "message" v (by simp) hv)
    exact ⟨_, (formatMT5Message_ok_iff ps clock _).2 ⟨s, p, m, hs, hp, hm, rfl⟩⟩
  · intro out h
    obtain ⟨s, p, m, t, hs, hp, hm, _, rfl⟩ := (formatTradingViewMessage_ok_iff ps clock out).1 h
    refine ⟨s, p, m, t, rfl, ?_, ?_, ?_⟩
    · intro hn
      rw [hn] at hs
      cases hs
      rfl
    · intro hn
      rw [hn] at hp
      cases hp
      rfl
    · intro hn1 hn2
      rw [hn1, hn2] at hm
      cases hm
      rfl
  · intro out h
    obtain ⟨s, p, m, hs, hp, hm, rfl⟩ := (formatMT5Message_ok_iff ps clock out).1 h
    refine ⟨s, p, m, rfl, ?_, ?_, ?_⟩
    · intro hn
      rw [hn] at hs
      cases hs
      rfl
    · intro hn
      rw [hn] at hp
      cases hp
      rfl
    · intro hn
      rw [hn] at hm
      cases hm
      rfl

theorem formatters_defaults_witness :
    (∃ out, formatTradingViewMessage (.obj [("price", .num "1.5")]) "10:00:00 4/11/2026"
      = .ok out) ∧
    (∃ out, formatMT5Message (.obj [("price", .num "1.5")]) "10:00:00 4/11/2026" = .ok out) ∧
    (∃ s p m t,
      "🔔 <b>TRADINGVIEW ALERT</b>\n\n📊 <b>Symbol:</b> Unknown\n💰 <b>Price:</b> 1.5\n📝 <b>Message:</b> Alert!\n🕐 <b>Time:</b> 10:00:00 4/11/2026"
        = tradingViewTemplate s p m t ∧
      (lookup "symbol" [("price", JVal.num "1.5")] = none → s = "Unknown") ∧
      (lookup "price" [("price", JVal.num "1.5")] = none → p = "N/A") ∧
      (lookup "message" [("price", JVal.num "1.5")] = none →
        lookup "text" [("price", JVal.num "1.5")] = none → m = "Alert!")) ∧
    (∃ s p m,
      "🚨 <b>MT5 ALERT</b>\n\n📊 <b>Symbol:</b> Unknown\n💰 <b>Price:</b> 1.5\n📝 <b>Message:</b> MT5 Alert!\n🕐 <b>Time:</b> 10:00:00 4/11/2026"
        = mt5Template s p m "10:00:00 4/11/2026" ∧
      (lookup "symbol" [("price", JVal.num "1.5")] = none → s = "Unknown") ∧
      (lookup "price" [("price", JVal.num "1.5")] = none → p = "N/A") ∧
      (lookup "message" [("price", JVal.num "1.5")] = none → m = "MT5 Alert!")) :=
  ⟨(formatters_defaults [("price", .num "1.5")] "10:00:00 4/11/2026").1 (by
      intro k v _ hv
      unfold lookup at hv
      split at hv
      · cases hv
        exact ⟨"1.5", rfl⟩
      · simp [lookup] at hv),
   (formatters_defaults [("price", .num "1.5")] "10:00:00 4/11/2026").2.1 (by
      intro k v _ hv
      unfold lookup at hv
      split at hv
      · cases hv
        exact ⟨"1.5", rfl⟩
      · simp [lookup] at hv),
   (formatters_defaults [("price", .num "1.5")] "10:00:00 4/11/2026").2.2.1 _ rfl,
   (formatters_defaults [("price", .num "1.5")] "10:00:00 4/11/2026").2.2.2 _ rfl⟩

/-! ## The clock only reaches the Time line -/

theorem time_selection (a : Option JVal) (c1 c2 : String) :
    (∃ e, toStrU (jsOr a (some (.str c1))) = .error e ∧
          toStrU (jsOr a (some (.str c2))) = .error e) ∨
    (∃ t1 t2, toStrU (jsOr a (some (.str c1))) = .ok t1 ∧
          toStrU (jsOr a (some (.str c2))) = .ok t2 ∧ ((t1 = c1 ∧ t2 = c2) ∨ t1 = t2)) := by
  by_cases h : truthyU a = true
  · rw [jsOr_of_truthy a _ h, jsOr_of_truthy a _ h]
    cases hr : toStrU a with
    | error e => exact Or.inl ⟨e, rfl, rfl⟩
    | ok t => exact Or.inr ⟨t, t, rfl, rfl, Or.inr rfl⟩
  · have h' : truthyU a = false := by simpa using h
    rw [jsOr_of_falsy a _ h', jsOr_of_falsy a _ h']
    exact Or.inr ⟨c1, c2, rfl, rfl, Or.inl ⟨rfl, rfl⟩⟩

theorem formatTradingViewMessage_clock (data : JVal) (c1 c2 : String) :
    (∃ e, formatTradingViewMessage data c1 = .error e ∧
          formatTradingViewMessage data c2 = .error e) ∨
    (∃ head t1 t2,
      formatTradingViewMessage data c1 = .ok (head ++ "\n🕐 <b>Time:</b> " ++ t1) ∧
      formatTradingViewMessage data c2 = .ok (head ++ "\n🕐 <b>Time:</b> " ++ t2) ∧
      ((t1 = c1 ∧ t2 = c2) ∨ t1 = t2)) := by
  by_cases hd : data = .null
  · subst hd
    exact Or.inl ⟨_, rfl, rfl⟩
  · rw [formatTradingViewMessage_fields data c1 hd, formatTradingViewMessage_fields data c2 hd,
      formatTradingViewMessage_obj, formatTradingViewMessage_obj]
    cases hs : toStrU (jsOr (lookup "symbol" (fields data)) (some (.str "Unknown"))) with
    | error e => exact Or.inl ⟨e, rfl, rfl⟩
    | ok s =>
      cases hp : toStrU (jsOr (lookup "price" (fields data)) (some (.str "N/A"))) with
      | error e => exact Or.inl ⟨e, rfl, rfl⟩
      | ok p =>
        cases hm : toStrU (jsOr (jsOr (lookup "message" (fields data))
            (lookup "text" (fields data))) (some (.str "Alert!"))) with
        | error e => exact Or.inl ⟨e, rfl, rfl⟩
        | ok m =>
          rcases time_selection (lookup "time" (fields data)) c1 c2 with
            ⟨e, h1, h2⟩ | ⟨t1, t2, h1, h2, h3⟩
          · rw [h1, h2]
            exact Or.inl ⟨e, rfl, rfl⟩
          · rw [h1, h2]
            exact Or.inr ⟨tradingViewHead s p m, t1, t2, rfl, rfl, h3⟩

theorem formatMT5Message_clock (data : JVal) (c1 c2 : String) :
    (∃ e, formatMT5Message data c1 = .error e ∧ formatMT5Message data c2 = .error e) ∨
    (∃ head,
      formatMT5Message data c1 = .ok (head ++ "\n🕐 <b>Time:</b> " ++ c1) ∧
      formatMT5Message data c2 = .ok (head ++ "\n🕐 <b>Time:</b> " ++ c2)) := by
  by_cases hd : data = .null
  · subst hd
    exact Or.inl ⟨_, rfl, rfl⟩
  · rw [formatMT5Message_fields data c1 hd, formatMT5Message_fields data c2 hd,
      formatMT5Message_obj, formatMT5Message_obj]
    cases hs : toStrU (jsOr (lookup "symbol" (fields data)) (some (.str "Unknown"))) with
    | error e => exact Or.inl ⟨e, rfl, rfl⟩
    | ok s =>
      cases hp : toStrU (jsOr (lookup "price" (fields data)) (some (.str "N/A"))) with
      | error e => exact Or.inl ⟨e, rfl, rfl⟩
      | ok p =>
        cases hm : toStrU (jsOr (lookup "message" (fields data)) (some (.str "MT5 Alert!"))) with
        | error e => exact Or.inl ⟨e, rfl, rfl⟩
        | ok m => exact Or.inr ⟨mt5Head s p m, rfl, rfl⟩

/-- C9: with the clock reading an explicit argument, each formatter is a function of
(payload, clock reading): two calls on the same payload with clock readings `c1`, `c2`
either throw the same error or return texts with a common part up to and including
"🕐 <b>Time:</b> " followed by a time text, the time texts being the two clock
readings or one common text taken from the payload (always the clock readings for
MT5). -/
theorem formatters_differ_only_in_time (data : JVal) (c1 c2 : String) :
    ((∃ e, formatTradingViewMessage data c1 = .error e ∧
           formatTradingViewMessage data c2 = .error e) ∨
     (∃ head t1 t2,
       formatTradingViewMessage data c1 = .ok (head ++ "\n🕐 <b>Time:</b> " ++ t1) ∧
       formatTradingViewMessage data c2 = .ok (head ++ "\n🕐 <b>Time:</b> " ++ t2) ∧
       ((t1 = c1 ∧ t2 = c2) ∨ t1 = t2))) ∧
    ((∃ e, formatMT5Message data c1 = .error e ∧ formatMT5Message data c2 = .error e) ∨
     (∃ head,
       formatMT5Message data c1 = .ok (head ++ "\n🕐 <b>Time:</b> " ++ c1) ∧
       formatMT5Message data c2 = .ok (head ++ "\n🕐 <b>Time:</b> " ++ c2))) :=
  ⟨formatTradingViewMessage_clock data c1 c2, formatMT5Message_clock data c1 c2⟩

/-! ## Selection by truthiness -/

theorem lookup_removeKey_self (k : String) (ps : List (String × JVal)) :
    lookup k (removeKey k ps) = none := by
  induction ps with
  | nil => rfl
  | cons kv rest ih =>
    obtain ⟨k', v⟩ := kv
    by_cases h : k' = k
    · simp [removeKey, h, ih]
    · simp [removeKey, lookup, h, ih]

theorem lookup_removeKey_other (k k' : String) (ps : List (String × JVal)) (h : k' ≠ k) :
    lookup k' (removeKey k ps) = lookup k' ps := by
  induction ps with
  | nil => rfl
  | cons kv rest ih =>
    obtain ⟨k'', v⟩ := kv
    by_cases h1 : k'' = k
    · have h2 : ¬ k'' = k' := fun h3 => h (h3.symm.trans h1)
      rw [removeKey, if_pos h1, ih, lookup, if_neg h2]
    · by_cases h2 : k'' = k'
      · rw [removeKey, if_neg h1, lookup, if_pos h2, lookup, if_pos h2]
      · rw [removeKey, if_neg h1, lookup, if_neg h2, lookup, if_neg h2, ih]

theorem sameChoice_removeKey (k k' : String) (ps : List (String × JVal)) (v : JVal)
    (hk : lookup k ps = some v) (hv : truthy v = false) :
    sameChoice (lookup k' ps) (lookup k' (removeKey k ps)) := by
  by_cases h : k' = k
  · subst h
    rw [lookup_removeKey_self, hk]
    exact Or.inr ⟨hv, rfl⟩
  · rw [lookup_removeKey_other k k' ps h]
    exact Or.inl rfl

theorem jsOr_sameChoice (a a' b : Option JVal) (h : sameChoice a a') :
    jsOr a b = jsOr a' b := by
  rcases h with h | ⟨h1, h2⟩
  · rw [h]
  · rw [jsOr_of_falsy a b h1, jsOr_of_falsy a' b h2]

theorem sameChoice_jsOr (a a' b b' : Option JVal) (ha : sameChoice a a')
    (hb : sameChoice b b') : sameChoice (jsOr a b) (jsOr a' b') := by
  rcases ha with ha | ⟨h1, h2⟩
  · subst ha
    by_cases h : truthyU a = true
    · rw [jsOr_of_truthy a b h, jsOr_of_truthy a b' h]
      exact Or.inl rfl
    · have h' : truthyU a = false := by simpa using h
      rw [jsOr_of_falsy a b h', jsOr_of_falsy a b' h']
      exact hb
  · rw [jsOr_of_falsy a b h1, jsOr_of_falsy a' b' h2]
    exact hb

theorem formatTradingViewMessage_removeKey (k : String) (ps : List (String × JVal)) (v : JVal)
    (clock : String) (hk : lookup k ps = some v) (hv : truthy v = false) :
    formatTradingViewMessage (.obj ps) clock =
      formatTradingViewMessage (.obj (removeKey k ps)) clock := by
  rw [formatTradingViewMessage_obj, formatTradingViewMessage_obj,
    jsOr_sameChoice _ _ _ (sameChoice_removeKey k "symbol" ps v hk hv),
    jsOr_sameChoice _ _ _ (sameChoice_removeKey k "price" ps v hk hv),
    jsOr_sameChoice _ _ _ (sameChoice_jsOr _ _ _ _ (sameChoice_removeKey k "message" ps v hk hv)
      (sameChoice_removeKey k "text" ps v hk hv)),
    jsOr_sameChoice _ _ _ (sameChoice_removeKey k "time" ps v hk hv)]

theorem formatMT5Message_removeKey (k : String) (ps : List (String × JVal)) (v : JVal)
    (clock : String) (hk : lookup k ps = some v) (hv : truthy v = false) :
    formatMT5Message (.obj ps) clock = formatMT5Message (.obj (removeKey k ps)) clock := by
  rw [formatMT5Message_obj, formatMT5Message_obj,
    jsOr_sameChoice _ _ _ (sameChoice_removeKey k "symbol" ps v hk hv),
    jsOr_sameChoice _ _ _ (sameChoice_removeKey k "price" ps v hk hv),
    jsOr_sameChoice _ _ _ (sameChoice_removeKey k "message" ps v hk hv)]

theorem webhookText_obj (ps : List (String × JVal)) :
    webhookText (.obj ps) =
      if truthyU (jsOr (lookup "message" ps) (lookup "text" ps)) = true then
        (toStrU (jsOr (lookup "message" ps) (lookup "text" ps))).map (fun t => alertHeader ++ t)
      else .ok (alertHeader ++ stringifyPretty (.obj ps)) := by
  unfold webhookText
  simp only [getField, bind, Except.bind, pure, Except.pure]
  split
  · cases toStrU (jsOr (lookup "message" ps) (lookup "text" ps)) <;> rfl
  · rfl

theorem webhookText_falsy (ps : List (String × JVal))
    (hm : truthyU (lookup "message" ps) = false) (ht : truthyU (lookup "text" ps) = false) :
    webhookText (.obj ps) = .ok (alertHeader ++ stringifyPretty (.obj ps)) := by
  rw [webhookText_obj, jsOr_of_falsy _ _ hm]
  simp [ht]

theorem webhookText_message (ps : List (String × JVal)) (v : JVal)
    (hm : lookup "message" ps = some v) (hv : truthy v = true) :
    webhookText (.obj ps) = (toStr v).map (fun t => alertHeader ++ t) := by
  have h : truthyU (lookup "message" ps) = true := by rw [hm]; exact hv
  rw [webhookText_obj, jsOr_of_truthy _ _ h, if_pos h, hm]
  rfl

theorem webhookText_text (ps : List (String × JVal)) (v : JVal)
    (hm : truthyU (lookup "message" ps) = false)
    (ht : lookup "text" ps = some v) (hv : truthy v = true) :
    webhookText (.obj ps) = (toStr v).map (fun t => alertHeader ++ t) := by
  have h : truthyU (lookup "text" ps) = true := by rw [ht]; exact hv
  rw [webhookText_obj, jsOr_of_falsy _ _ hm, if_pos h, ht]
  rfl

theorem toStrU_jsOr_truthy (a d : Option JVal) (v : JVal) (s : String)
    (ha : a = some v) (hv : truthy v = true) (hs : toStrU (jsOr a d) = .ok s) :
    toStr v = .ok s := by
  subst ha
  rw [jsOr_of_truthy _ _ (show truthyU (some v) = true from hv)] at hs
  exact hs

/-- C10 (as stated) fails: a truthy `time` of an MT5 payload is not rendered, the clock
reading is; and a truthy `price` that is an array holding an object with an own
`toString` property is not rendered either, the formatter throws. -/
theorem truthy_value_not_always_rendered :
    formatMT5Message (.obj [("time", .str "yesterday")]) "10:00:00 4/11/2026" =
      .ok "🚨 <b>MT5 ALERT</b>\n\n📊 <b>Symbol:</b> Unknown\n💰 <b>Price:</b> N/A\n📝 <b>Message:</b> MT5 Alert!\n🕐 <b>Time:</b> 10:00:00 4/11/2026" ∧
    formatTradingViewMessage (.obj [("price", .arr [.obj [("toString", .str "x")]])])
      "10:00:00 4/11/2026" = .error toPrimitiveError := by
  constructor <;> rfl

/-- C10 (amended): selection is by truthiness. A payload field that is present but
falsy is treated by both formatters exactly as if it were absent, and a `/webhook`
mapping whose `message` and `text` are both falsy or absent is rendered as the
pretty-printed JSON of the whole body. Conversely, whenever a formatter returns, a
truthy value of a field it reads is what is rendered on that field's line: `symbol`,
`price`, `message` in both formatters, and in the TradingView formatter also `time`
and, when `message` is falsy, `text`; on `/webhook` the text is the string form of a
truthy `message`, else of a truthy `text`. -/
theorem selection_by_truthiness (ps : List (String × JVal)) (clock : String) :
    (∀ k v, lookup k ps = some v → truthy v = false →
      formatTradingViewMessage (.obj ps) clock =
        formatTradingViewMessage (.obj (removeKey k ps)) clock ∧
      formatMT5Message (.obj ps) clock = formatMT5Message (.obj (removeKey k ps)) clock) ∧
    (truthyU (lookup "message" ps) = false → truthyU (lookup "text" ps) = false →
      webhookText (.obj ps) = .ok (alertHeader ++ stringifyPretty (.obj ps))) ∧
    (∀ out, formatTradingViewMessage (.obj ps) clock = .ok out →
      ∃ s p m t, out = tradingViewTemplate s p m t ∧
        (∀ v, lookup "symbol" ps = some v → truthy v = true → toStr v = .ok s) ∧
        (∀ v, lookup "price" ps = some v → truthy v = true → toStr v = .ok p) ∧
        (∀ v, lookup "message" ps = some v → truthy v = true → toStr v = .ok m) ∧
        (∀ v, truthyU (lookup "message" ps) = false → lookup "text" ps = some v →
          truthy v = true → toStr v = .ok m) ∧
        (∀ v, lookup "time" ps = some v → truthy v = true → toStr v = .ok t)) ∧
    (∀ out, formatMT5Message (.obj ps) clock = .ok out →
      ∃ s p m, out = mt5Template s p m clock ∧
        (∀ v, lookup "symbol" ps = some v → truthy v = true → toStr v = .ok s) ∧
        (∀ v, lookup "price" ps = some v → truthy v = true → toStr v = .ok p) ∧
        (∀ v, lookup "message" ps = some v → truthy v = true → toStr v = .ok m)) ∧
    (∀ v, lookup "message" ps = some v → truthy v = true →
      webhookText (.obj ps) = (toStr v).map (fun t => alertHeader ++ t)) ∧
    (∀ v, truthyU (lookup "message" ps) = false → lookup "text" ps = some v →
      truthy v = true → webhookText (.obj ps) = (toStr v).map (fun t => alertHeader ++ t)) := by
  refine ⟨?_, ?_, ?_, ?_, ?_, ?_⟩
  · intro k v hk hv
    exact ⟨formatTradingViewMessage_removeKey k ps v clock hk hv,
      formatMT5Message_removeKey k ps v clock hk hv⟩
  · exact webhookText_falsy ps
  · intro out h
    obtain ⟨s, p, m, t, hs, hp, hm, ht, rfl⟩ := (formatTradingViewMessage_ok_iff ps clock out).1 h
    refine ⟨s, p, m, t, rfl, ?_, ?_, ?_, ?_, ?_⟩
    · intro v hv htr
      exact toStrU_jsOr_truthy _ _ v s hv htr hs
    · intro v hv htr
      exact toStrU_jsOr_truthy _ _ v p hv htr hp
    · intro v hv htr
      have h1 : truthyU (lookup "message" ps) = true := by rw [hv]; exact htr
      rw [jsOr_of_truthy (lookup "message" ps) _ h1] at hm
      exact toStrU_jsOr_truthy _ _ v m hv htr hm
    · intro v hf hv htr
      rw [jsOr_of_falsy (lookup "message" ps) _ hf] at hm
      exact toStrU_jsOr_truthy _ _ v m hv htr hm
    · intro v hv htr
      exact toStrU_jsOr_truthy _ _ v t hv htr ht
  · intro out h
    obtain ⟨s, p, m, hs, hp, hm, rfl⟩ := (formatMT5Message_ok_iff ps clock out).1 h
    refine ⟨s, p, m, rfl, ?_, ?_, ?_⟩
    · intro v hv htr
      exact toStrU_jsOr_truthy _ _ v s hv htr hs
    · intro v hv htr
      exact toStrU_jsOr_truthy _ _ v p hv htr hp
    · intro v hv htr
      exact toStrU_jsOr_truthy _ _ v m hv htr hm
  · exact webhookText_message ps
  · exact webhookText_text ps

theorem selection_by_truthiness_witness :
    (formatTradingViewMessage (.obj [("price", .num "0")]) "10:00:00 4/11/2026" =
        formatTradingViewMessage (.obj []) "10:00:00 4/11/2026" ∧
      formatMT5Message (.obj [("price", .num "0")]) "10:00:00 4/11/2026" =
        formatMT5Message (.obj []) "10:00:00 4/11/2026") ∧
    webhookText (.obj [("message", .num "0")]) =
      .ok "📨 <b>ALERT</b>\n\n\x7b\n  \"message\": 0\n\x7d" ∧
    webhookText (.obj [("message", .str ""), ("text", .str "x")]) =
      .ok "📨 <b>ALERT</b>\n\nx" ∧
    (∃ s p m t,
      "🔔 <b>TRADINGVIEW ALERT</b>\n\n📊 <b>Symbol:</b> Unknown\n💰 <b>Price:</b> N/A\n📝 <b>Message:</b> x\n🕐 <b>Time:</b> 10:00:00 4/11/2026"
        = tradingViewTemplate s p m t ∧
      (∀ v, lookup "symbol" [("message", JVal.str ""), ("text", JVal.str "x")] = some v →
        truthy v = true → toStr v = .ok s) ∧
      (∀ v, lookup "price" [("message", JVal.str ""), ("text", JVal.str "x")] = some v →
        truthy v = true → toStr v = .ok p) ∧
      (∀ v, lookup "message" [("message", JVal.str ""), ("text", JVal.str "x")] = some v →
        truthy v = true → toStr v = .ok m) ∧
      (∀ v, truthyU (lookup "message" [("message", JVal.str ""), ("text", JVal.str "x")]) = false →
        lookup "text" [("message", JVal.str ""), ("text", JVal.str "x")] = some v →
        truthy v = true → toStr v = .ok m) ∧
      (∀ v, lookup "time" [("message", JVal.str ""), ("text", JVal.str "x")] = some v →
        truthy v = true → toStr v = .ok t)) :=
  ⟨(selection_by_truthiness [("price", .num "0")] "10:00:00 4/11/2026").1
      "price" (.num "0") rfl rfl,
   (selection_by_truthiness [("message", .num "0")] "10:00:00 4/11/2026").2.1 rfl rfl,
   (selection_by_truthiness [("message", .str ""), ("text", .str "x")]
      "10:00:00 4/11/2026").2.2.2.2.2 (.str "x") rfl rfl rfl,
   (selection_by_truthiness [("message", .str ""), ("text", .str "x")]
      "10:00:00 4/11/2026").2.2.1 _ rfl⟩

/-! ## The generic route -/

theorem routeWebhook_sent_of_ok (cfg : Config) (parse : String → Except JSError JVal)
    (net : TelegramRequest → ProviderEvent) (body : JVal) (text : String)
    (h : webhookText body = .ok text) : (routeWebhook cfg parse net body).sent = [text] := by
  rw [routeWebhook, h, formatThenSend_ok]
  exact sendAndRespond_sent _ _ _ _ _

/-- C2 (as stated) fails: the mapping `{message: ""}` has a `message` field, yet the
text handed to the sender is the header followed by the pretty-printed body, not the
header followed by the (empty) value of the field. -/
theorem routeWebhook_present_but_falsy_message :
    (routeWebhook sampleConfig sampleParse (fun _ => .response 200 "\x7b\"ok\":true\x7d")
        (.obj [("message", .str "")])).sent =
      ["📨 <b>ALERT</b>\n\n\x7b\n  \"message\": \"\"\n\x7d"] ∧
    "📨 <b>ALERT</b>\n\n\x7b\n  \"message\": \"\"\n\x7d" ≠ "📨 <b>ALERT</b>\n\n" ++ "" := by
  constructor
  · rfl
  · decide

/-- C2 (amended): the text handed to the sender by `POST /webhook` is the header
"📨 <b>ALERT</b>\n\n" followed by: the body itself when the body is a string; the
string form of `message` when the body is a mapping whose `message` is truthy (the
value verbatim when it is a string); else the string form of `text` when `text` is
truthy (verbatim when a string); and the 2-space pretty-printed JSON of the whole body
for any other mapping, including one whose `message` or `text` is present but falsy. -/
theorem routeWebhook_text (cfg : Config) (parse : String → Except JSError JVal)
    (net : TelegramRequest → ProviderEvent) :
    (∀ s, (routeWebhook cfg parse net (.str s)).sent = [alertHeader ++ s]) ∧
    (∀ ps v t, lookup "message" ps = some v → truthy v = true → toStr v = .ok t →
      (routeWebhook cfg parse net (.obj ps)).sent = [alertHeader ++ t]) ∧
    (∀ ps v t, truthyU (lookup "message" ps) = false → lookup "text" ps = some v →
      truthy v = true → toStr v = .ok t →
      (routeWebhook cfg parse net (.obj ps)).sent = [alertHeader ++ t]) ∧
    (∀ ps s, lookup "message" ps = some (.str s) → s ≠ "" →
      (routeWebhook cfg parse net (.obj ps)).sent = [alertHeader ++ s]) ∧
    (∀ ps s, truthyU (lookup "message" ps) = false → lookup "text" ps = some (.str s) →
      s ≠ "" → (routeWebhook cfg parse net (.obj ps)).sent = [alertHeader ++ s]) ∧
    (∀ ps, truthyU (lookup "message" ps) = false → truthyU (lookup "text" ps) = false →
      (routeWebhook cfg parse net (.obj ps)).sent = [alertHeader ++ stringifyPretty (.obj ps)]) := by
  refine ⟨?_, ?_, ?_, ?_, ?_, ?_⟩
  · intro s
    exact routeWebhook_sent_of_ok cfg parse net _ _ rfl
  · intro ps v t hm hv ht
    apply routeWebhook_sent_of_ok
    rw [webhookText_message ps v hm hv, ht]
    rfl
  · intro ps v t hm hx hv ht
    apply routeWebhook_sent_of_ok
    rw [webhookText_text ps v hm hx hv, ht]
    rfl
  · intro ps s hm hs
    apply routeWebhook_sent_of_ok
    rw [webhookText_message ps (.str s) hm (by simpa [truthy] using hs)]
    rfl
  · intro ps s hm hx hs
    apply routeWebhook_sent_of_ok
    rw [webhookText_text ps (.str s) hm hx (by simpa [truthy] using hs)]
    rfl
  · intro ps hm hx
    exact routeWebhook_sent_of_ok cfg parse net _ _ (webhookText_falsy ps hm hx)

theorem routeWebhook_text_witness :
    (routeWebhook sampleConfig sampleParse (fun _ => .response 200 "\x7b\"ok\":true\x7d")
        (.obj [("message", .num "7")])).sent = ["📨 <b>ALERT</b>\n\n7"] ∧
    (routeWebhook sampleConfig sampleParse (fun _ => .response 200 "\x7b\"ok\":true\x7d")
        (.obj [("message", .null), ("text", .arr [.str "a", .str "b"])])).sent =
      ["📨 <b>ALERT</b>\n\na,b"] ∧
    (routeWebhook sampleConfig sampleParse (fun _ => .response 200 "\x7b\"ok\":true\x7d")
        (.obj [("message", .str "Buy now")])).sent = ["📨 <b>ALERT</b>\n\nBuy now"] ∧
    (routeWebhook sampleConfig sampleParse (fun _ => .response 200 "\x7b\"ok\":true\x7d")
        (.obj [("text", .str "Sell")])).sent = ["📨 <b>ALERT</b>\n\nSell"] ∧
    (routeWebhook sampleConfig sampleParse (fun _ => .response 200 "\x7b\"ok\":true\x7d")
        (.obj [("symbol", .str "BTC"), ("text", .bool false)])).sent =
      ["📨 <b>ALERT</b>\n\n\x7b\n  \"symbol\": \"BTC\",\n  \"text\": false\n\x7d"] :=
  ⟨(routeWebhook_text sampleConfig sampleParse
      (fun _ => .response 200 "\x7b\"ok\":true\x7d")).2.1 _ (.num "7") "7" rfl rfl rfl,
   (routeWebhook_text sampleConfig sampleParse
      (fun _ => .response 200 "\x7b\"ok\":true\x7d")).2.2.1 _ (.arr [.str "a", .str "b"]) "a,b"
      rfl rfl rfl rfl,
   (routeWebhook_text sampleConfig sampleParse
      (fun _ => .response 200 "\x7b\"ok\":true\x7d")).2.2.2.1 _ "Buy now" rfl (by decide),
   (routeWebhook_text sampleConfig sampleParse
      (fun _ => .response 200 "\x7b\"ok\":true\x7d")).2.2.2.2.1 _ "Sell" rfl rfl (by decide),
   (routeWebhook_text sampleConfig sampleParse
      (fun _ => .response 200 "\x7b\"ok\":true\x7d")).2.2.2.2.2
      [("symbol", .str "BTC"), ("text", .bool false)] rfl rfl⟩

/-! ## The TradingView route -/

theorem strictEqString_eq_true (sec : Option JVal) (s : String) :
    strictEqString sec s = true ↔ sec = some (.str s) := by
  cases sec with
  | none => simp [strictEqString]
  | some v => cases v <;> simp [strictEqString]

/-- C1 (as stated) fails: with no secret configured, a body whose `message` is an
object with an own `toString` property makes the formatter throw inside the `try`;
nothing is handed to the sender and the response is 500. -/
theorem routeTradingview_formatter_throws :
    routeTradingview sampleConfig sampleParse (fun _ => .response 200 "\x7b\"ok\":true\x7d")
        "10:00:00 4/11/2026" (.obj [("message", .obj [("toString", .str "x")])]) =
      ⟨[], some ⟨500, .obj [("error", .str "Cannot convert object to primitive value")]⟩⟩ := by
  rfl

/-- C1 (amended): `POST /webhook/tradingview` answers 401 `{error: 'Invalid secret'}`
without sending exactly when a secret is configured (non-empty) and the body's `secret`
is not that same string. In every other case (no secret configured, whatever the
body; or a matching `secret`): if `formatTradingViewMessage(body)` returns a text, that
text is handed to the sender exactly once and the response is 200 `{success: true}`
when the send resolves; if the formatter throws `e`, nothing is sent and the response
is 500 `{error: e.message}`. -/
theorem routeTradingview_contract (cfg : Config) (parse : String → Except JSError JVal)
    (net : TelegramRequest → ProviderEvent) (clock : String) (body : JVal) :
    (∀ sec, getField body "secret" = .ok sec → cfg.WEBHOOK_SECRET ≠ "" →
      sec ≠ some (.str cfg.WEBHOOK_SECRET) →
      routeTradingview cfg parse net clock body =
        ⟨[], some ⟨401, .obj [("error", .str "Invalid secret")]⟩⟩) ∧
    ((routeTradingview cfg parse net clock body).response.map (fun r => r.status) = some 401 →
      cfg.WEBHOOK_SECRET ≠ "" ∧
      getField body "secret" ≠ .ok (some (.str cfg.WEBHOOK_SECRET))) ∧
    ((cfg.WEBHOOK_SECRET = "" ∨ getField body "secret" = .ok (some (.str cfg.WEBHOOK_SECRET))) →
      (∀ text, formatTradingViewMessage body clock = .ok text →
        (routeTradingview cfg parse net clock body).sent = [text] ∧
        ∀ v, sendTelegramMessage cfg parse net text = .resolved v →
          routeTradingview cfg parse net clock body = ⟨[text], some ⟨200, .obj [("success", .bool true)]⟩⟩) ∧
      (∀ e, formatTradingViewMessage body clock = .error e →
        routeTradingview cfg parse net clock body = ⟨[], some ⟨500, .obj [("error", .str e.message)]⟩⟩)) := by
  have hpass : (cfg.WEBHOOK_SECRET = "" ∨
      getField body "secret" = .ok (some (.str cfg.WEBHOOK_SECRET))) →
      routeTradingview cfg parse net clock body =
        formatThenSend cfg parse net (formatTradingViewMessage body clock) := by
    intro h
    rcases h with h | h
    · unfold routeTradingview
      simp [h]
    · rw [routeTradingview_unfold cfg parse net clock body _ h]
      have : strictEqString (some (.str cfg.WEBHOOK_SECRET)) cfg.WEBHOOK_SECRET = true :=
        (strictEqString_eq_true _ _).2 rfl
      simp [this]
  refine ⟨?_, ?_, ?_⟩
  · intro sec hsec hne hsn
    rw [routeTradingview_unfold cfg parse net clock body sec hsec]
    have : strictEqString sec cfg.WEBHOOK_SECRET = false := by
      cases hb : strictEqString sec cfg.WEBHOOK_SECRET with
      | false => rfl
      | true => exact absurd ((strictEqString_eq_true _ _).1 hb) hsn
    simp [hne, this]
  · intro h401
    constructor
    · intro he
      rw [hpass (Or.inl he)] at h401
      exact formatThenSend_status_ne _ _ _ _ h401
    · intro he
      rw [hpass (Or.inr he)] at h401
      exact formatThenSend_status_ne _ _ _ _ h401
  · intro h
    rw [hpass h]
    constructor
    · intro text ht
      rw [ht, formatThenSend_ok]
      exact ⟨sendAndRespond_sent _ _ _ _ _, fun v hv => sendAndRespond_resolved _ _ _ _ _ v hv⟩
    · intro e he
      rw [he]
      rfl

theorem routeTradingview_contract_witness :
    routeTradingview secretConfig sampleParse (fun _ => .response 200 "\x7b\"ok\":true\x7d")
        "10:00:00 4/11/2026" (.obj [("secret", .str "wrong")]) =
      ⟨[], some ⟨401, .obj [("error", .str "Invalid secret")]⟩⟩ ∧
    routeTradingview sampleConfig sampleParse (fun _ => .response 200 "\x7b\"ok\":true\x7d")
        "10:00:00 4/11/2026" (.obj [("symbol", .str "BTCUSD")]) =
      ⟨["🔔 <b>TRADINGVIEW ALERT</b>\n\n📊 <b>Symbol:</b> BTCUSD\n💰 <b>Price:</b> N/A\n📝 <b>Message:</b> Alert!\n🕐 <b>Time:</b> 10:00:00 4/11/2026"],
        some ⟨200, .obj [("success", .bool true)]⟩⟩ ∧
    routeTradingview secretConfig sampleParse (fun _ => .response 200 "\x7b\"ok\":true\x7d")
        "10:00:00 4/11/2026" (.obj [("secret", .str "abc"), ("price", .arr [.obj [("toString", .null)]])]) =
      ⟨[], some ⟨500, .obj [("error", .str "Cannot convert object to primitive value")]⟩⟩ ∧
    (secretConfig.WEBHOOK_SECRET ≠ "" ∧
      getField (.obj [("secret", .str "wrong")]) "secret" ≠
        .ok (some (.str secretConfig.WEBHOOK_SECRET))) :=
  ⟨(routeTradingview_contract secretConfig sampleParse
      (fun _ => .response 200 "\x7b\"ok\":true\x7d") "10:00:00 4/11/2026"
      (.obj [("secret", .str "wrong")])).1 (some (.str "wrong")) rfl (by decide)
      (by simp [secretConfig]),
   ((routeTradingview_contract sampleConfig sampleParse
      (fun _ => .response 200 "\x7b\"ok\":true\x7d") "10:00:00 4/11/2026"
      (.obj [("symbol", .str "BTCUSD")])).2.2 (Or.inl rfl)).1 _ rfl |>.2
      (.obj [("ok", .bool true)]) rfl,
   ((routeTradingview_contract secretConfig sampleParse
      (fun _ => .response 200 "\x7b\"ok\":true\x7d") "10:00:00 4/11/2026"
      (.obj [("secret", .str "abc"), ("price", .arr [.obj [("toString", .null)]])])).2.2
      (Or.inr rfl)).2 _ rfl,
   (routeTradingview_contract secretConfig sampleParse
      (fun _ => .response 200 "\x7b\"ok\":true\x7d") "10:00:00 4/11/2026"
      (.obj [("secret", .str "wrong")])).2.1 rfl⟩

/-! ## The MT5 route -/

/-- C8 (as stated) fails: a body with non-empty string `symbol` and `price` whose
`message` is an object with an own `toString` property makes `formatMT5Message` throw;
no text is handed to the sender and the 500 carries the conversion error, not an
upstream body. -/
theorem routeMt5_unconvertible_message :
    routeMt5 sampleConfig sampleParse (fun _ => .response 500 "upstream failure")
        "10:00:00 4/11/2026"
        (.obj [("symbol", .str "EURUSD"), ("price", .str "1.2345"),
          ("message", .obj [("toString", .bool true)])]) =
      ⟨[], some ⟨500, .obj [("error", .str "Cannot convert object to primitive value")]⟩⟩ := by
  rfl

/-- C8 (amended): for every `POST /webhook/mt5` mapping whose `symbol` and `price` are
non-empty strings and whose selected message (`message`, or "MT5 Alert!" when that is
falsy) converts to a string `m`, the text handed to the sender, exactly once, is
`formatMT5Message(body)`, which carries the symbol on its "📊 <b>Symbol:</b> " line and
then the price on its "💰 <b>Price:</b> " line; and when the provider answers that send
with a status other than 200 the route responds 500 `{error: <upstream body>}`. -/
theorem routeMt5_symbol_price (cfg : Config) (parse : String → Except JSError JVal)
    (net : TelegramRequest → ProviderEvent) (clock : String) (ps : List (String × JVal))
    (symbol price m : String)
    (hs : lookup "symbol" ps = some (.str symbol)) (hs' : symbol ≠ "")
    (hp : lookup "price" ps = some (.str price)) (hp' : price ≠ "")
    (hm : toStrU (jsOr (lookup "message" ps) (some (.str "MT5 Alert!"))) = .ok m) :
    formatMT5Message (.obj ps) clock = .ok (mt5Template symbol price m clock) ∧
    (routeMt5 cfg parse net clock (.obj ps)).sent = [mt5Template symbol price m clock] ∧
    (∀ status body,
      net (telegramRequest cfg (mt5Template symbol price m clock)) = .response status body →
      status ≠ 200 →
      routeMt5 cfg parse net clock (.obj ps) =
        ⟨[mt5Template symbol price m clock], some ⟨500, .obj [("error", .str body)]⟩⟩) := by
  have hfmt : formatMT5Message (.obj ps) clock = .ok (mt5Template symbol price m clock) := by
    rw [formatMT5Message_ok_iff]
    refine ⟨symbol, price, m, ?_, ?_, hm, rfl⟩
    · rw [hs, jsOr_of_truthy _ _ (by simpa [truthyU, truthy] using hs')]
      rfl
    · rw [hp, jsOr_of_truthy _ _ (by simpa [truthyU, truthy] using hp')]
      rfl
  refine ⟨hfmt, ?_, ?_⟩
  · rw [routeMt5, hfmt, formatThenSend_ok]
    exact sendAndRespond_sent _ _ _ _ _
  · intro status body hn hst
    rw [routeMt5, hfmt, formatThenSend_ok]
    exact sendAndRespond_rejected _ _ _ _ _ ⟨"Error", body⟩
      ((sendTelegramMessage_rejects_non_ok cfg parse net _ status body hn hst))

theorem routeMt5_symbol_price_witness :
    formatMT5Message (.obj [("symbol", .str "EURUSD"), ("price", .str "1.2345")])
        "10:00:00 4/11/2026" =
      .ok "🚨 <b>MT5 ALERT</b>\n\n📊 <b>Symbol:</b> EURUSD\n💰 <b>Price:</b> 1.2345\n📝 <b>Message:</b> MT5 Alert!\n🕐 <b>Time:</b> 10:00:00 4/11/2026" ∧
    routeMt5 sampleConfig sampleParse (fun _ => .response 500 "upstream failure")
        "10:00:00 4/11/2026" (.obj [("symbol", .str "EURUSD"), ("price", .str "1.2345")]) =
      ⟨["🚨 <b>MT5 ALERT</b>\n\n📊 <b>Symbol:</b> EURUSD\n💰 <b>Price:</b> 1.2345\n📝 <b>Message:</b> MT5 Alert!\n🕐 <b>Time:</b> 10:00:00 4/11/2026"],
        some ⟨500, .obj [("error", .str "upstream failure")]⟩⟩ :=
  ⟨(routeMt5_symbol_price sampleConfig sampleParse (fun _ => .response 500 "upstream failure")
      "10:00:00 4/11/2026" [("symbol", .str "EURUSD"), ("price", .str "1.2345")]
      "EURUSD" "1.2345" "MT5 Alert!" rfl (by decide) rfl (by decide) rfl).1,
   (routeMt5_symbol_price sampleConfig sampleParse (fun _ => .response 500 "upstream failure")
      "10:00:00 4/11/2026" [("symbol", .str "EURUSD"), ("price", .str "1.2345")]
      "EURUSD" "1.2345" "MT5 Alert!" rfl (by decide) rfl (by decide) rfl).2.2
      500 "upstream failure" rfl (by decide)⟩

end SuperAlert
